import Mathlib

/-!
Shallow embedding of the TeleSync local sync engine
(`src/local_sync_service.py`, class `LocalSyncService`).

Python dicts are modelled as association lists in insertion order
(assignment to an existing key updates it in place, assignment to a new key
appends, deletion removes the pair), mirroring CPython dict semantics.
Filesystem and network effects (existence and size of the local file, the
outcome of `cloud_storage.download_file`, the clock) are supplied as an
explicit environment, and the JSON state file is modelled by an abstract
content type (absent / corrupt / well-formed).
-/

namespace TeleSync

/-- Lookup in a Python-dict model: value of the first pair with the key. -/
def dictLookup {α : Type} (d : List (String × α)) (k : String) : Option α :=
  (d.find? (fun kv => kv.1 == k)).map (·.2)

/-- Python dict assignment `d[k] = v`: update in place when the key exists,
append otherwise. -/
def dictInsert {α : Type} (d : List (String × α)) (k : String) (v : α) :
    List (String × α) :=
  if (d.find? (fun kv => kv.1 == k)).isSome then
    d.map (fun kv => if kv.1 == k then (k, v) else kv)
  else
    d ++ [(k, v)]

/-- Python dict deletion `del d[k]` (a no-op when the key is absent; the
source guards the deletion with `if cloud_path in ...` anyway). -/
def dictErase {α : Type} (d : List (String × α)) (k : String) :
    List (String × α) :=
  d.filter (fun kv => kv.1 != k)

/-- Value stored under a `cloud_path` key of `synced_files`
(source lines 140-144 and 155-159). -/
structure SyncedInfo where
  local_path : String
  synced_at : String
  size : Nat
deriving Repr, DecidableEq

/-- Value stored under a `cloud_path` key of `failed_downloads`
(source lines 183-187). -/
structure FailedInfo where
  filename : String
  failed_at : String
  retry_count : Nat
deriving Repr, DecidableEq

/-- The sync state dictionary (source lines 68-74). -/
structure SyncState where
  last_sync : Option String
  synced_files : List (String × SyncedInfo)
  failed_downloads : List (String × FailedInfo)
  total_synced : Nat
  total_size : Nat
deriving Repr, DecidableEq

/-- The fresh empty state returned by `load_sync_state` when no state file
exists or reading it fails (source lines 68-74 and 77-83). -/
def emptySyncState : SyncState :=
  { last_sync := none
    synced_files := []
    failed_downloads := []
    total_synced := 0
    total_size := 0 }

/-- A file-metadata dictionary as returned by
`cloud_storage.get_user_files`; `file_size` is read with
`file_info.get('file_size', 0)`, hence optional. -/
structure FileInfo where
  cloud_path : String
  filename : String
  channel_name : String
  file_size : Option Nat
deriving Repr, DecidableEq

/-- Environment of one `sync_file` call: the filesystem and network facts it
observes. `opError` models an exception raised by a filesystem or download
call before any state mutation (all mutations in `sync_file` come after the
last fallible operation of their branch); `localExists` and `localSize`
model `local_file_path.exists()` / `.stat().st_size`; `downloadOk` the
boolean result of `cloud_storage.download_file`; `downloadedSize` the
`st_size` after a successful download; `now` the clock. -/
structure SyncEnv where
  opError : Bool
  localExists : Bool
  localSize : Nat
  downloadOk : Bool
  downloadedSize : Nat
  now : String
deriving Repr, DecidableEq

/-- Result of one `sync_file` call: the new state, the returned boolean,
whether `cloud_storage.download_file` was invoked, and how many times
`save_sync_state` ran. -/
structure SyncFileResult where
  state : SyncState
  success : Bool
  downloadInvoked : Bool
  saves : Nat
deriving Repr, DecidableEq

/-- `LocalSyncService.sync_file` (source lines 113-195), one file.
Branches in source order: the exception path (returns `False`, no mutation,
no save); the size short-circuit (lines 134-146: local file exists with
size equal to `file_info.get('file_size', 0)` — record in `synced_files`,
save, return `True`, never calling `download_file`); the download-success
path (lines 152-180: record in `synced_files`, bump both counters, delete
the path from `failed_downloads`, save); the download-failure path
(lines 181-191: record in `failed_downloads` with `retry_count` one more
than the previous value, defaulting to 0, then save). -/
def sync_file (st : SyncState) (fi : FileInfo) (env : SyncEnv) :
    SyncFileResult :=
  if env.opError then
    { state := st, success := false, downloadInvoked := false, saves := 0 }
  else
    let local_file_path := fi.channel_name ++ "/" ++ fi.filename
    if env.localExists && (env.localSize == fi.file_size.getD 0) then
      { state :=
          { st with
            synced_files := dictInsert st.synced_files fi.cloud_path
              { local_path := local_file_path, synced_at := env.now
                size := env.localSize } }
        success := true, downloadInvoked := false, saves := 1 }
    else if env.downloadOk then
      { state :=
          { st with
            synced_files := dictInsert st.synced_files fi.cloud_path
              { local_path := local_file_path, synced_at := env.now
                size := env.downloadedSize }
            total_synced := st.total_synced + 1
            total_size := st.total_size + env.downloadedSize
            failed_downloads := dictErase st.failed_downloads fi.cloud_path }
        success := true, downloadInvoked := true, saves := 1 }
    else
      let prev_retries :=
        ((dictLookup st.failed_downloads fi.cloud_path).map
          (·.retry_count)).getD 0
      { state :=
          { st with
            failed_downloads := dictInsert st.failed_downloads fi.cloud_path
              { filename := fi.filename, failed_at := env.now
                retry_count := prev_retries + 1 } }
        success := false, downloadInvoked := true, saves := 1 }

/-- `LocalSyncService.get_cloud_files` (source lines 93-111): list the
catalog, keep the files whose `cloud_path` is not a key of `synced_files`;
any exception from the catalog listing is caught and the function returns
the empty list. -/
def get_cloud_files (st : SyncState) (catalog : Except Unit (List FileInfo)) :
    List FileInfo :=
  match catalog with
  | .error _ => []
  | .ok cloud_files =>
      cloud_files.filter
        (fun fi => !(dictLookup st.synced_files fi.cloud_path).isSome)

/-- Status component of the dictionary returned by `sync_all_files`
(source lines 206, 217, 241, 258). -/
inductive SyncStatus
  | disabled
  | no_new_files
  | completed
  | error
deriving Repr, DecidableEq

/-- Result of one `sync_all_files` pass: its status dictionary fields
(`total_files`, `successful`, `failed`), the number of `save_sync_state`
invocations made during the pass, and the state after the pass. -/
structure PassResult where
  status : SyncStatus
  total_files : Nat
  successful : Nat
  failed : Nat
  saves : Nat
  state : SyncState
deriving Repr, DecidableEq

/-- The transfer tasks of one pass (source lines 222-228), modelled as a
sequential fold: each task runs `sync_file` in its own environment, looked
up by `cloud_path`. Returns the final state, the number of tasks that
returned `True`, and the total number of `save_sync_state` calls made by
the tasks. The post-pass state is the union of all per-file outcomes, so
a fixed order is an adequate model of the gathered coroutines. -/
def runTasks (envOf : String → SyncEnv) :
    List FileInfo → SyncState → SyncState × Nat × Nat
  | [], st => (st, 0, 0)
  | fi :: rest, st =>
      let r := sync_file st fi (envOf fi.cloud_path)
      let t := runTasks envOf rest r.state
      (t.1, (if r.success then 1 else 0) + t.2.1, r.saves + t.2.2)

/-- `LocalSyncService.sync_all_files` (source lines 197-258): when sync is
disabled return `disabled`; otherwise list the plan via `get_cloud_files`
(an exception in the catalog listing is caught there and yields the empty
list); an empty plan returns `no_new_files` with the state untouched;
otherwise run every task, set `last_sync`, save once more, and return a
`completed` summary. -/
def sync_all_files (st : SyncState) (sync_enabled : Bool)
    (catalog : Except Unit (List FileInfo)) (envOf : String → SyncEnv)
    (now : String) : PassResult :=
  if !sync_enabled then
    { status := .disabled, total_files := 0, successful := 0, failed := 0
      saves := 0, state := st }
  else
    let files_to_sync := get_cloud_files st catalog
    if files_to_sync.isEmpty then
      { status := .no_new_files, total_files := 0, successful := 0
        failed := 0, saves := 0, state := st }
    else
      let t := runTasks envOf files_to_sync st
      { status := .completed
        total_files := files_to_sync.length
        successful := t.2.1
        failed := files_to_sync.length - t.2.1
        saves := t.2.2 + 1
        state := { t.1 with last_sync := some now } }

/-- Content of the persisted state file as `load_sync_state` can observe
it: no file, a file whose bytes do not parse as the JSON of a state (the
empty string and every strict prefix of a serialized state are of this
kind), or a complete serialized state. -/
inductive StoredContent
  | absent
  | corrupt
  | wellFormed (s : SyncState)
deriving Repr, DecidableEq

/-- `LocalSyncService.load_sync_state` (source lines 61-83): return the
parsed state when the file exists and parses; when the file is missing
return the fresh empty state; when opening or parsing raises, the
`except` clause also returns the fresh empty state, so the caller never
sees an exception. -/
def load_sync_state : StoredContent → SyncState
  | .wellFormed s => s
  | .absent => emptySyncState
  | .corrupt => emptySyncState

/-- `LocalSyncService.save_sync_state` (source lines 85-91) opens the
state file with mode `w` — truncating it in place — and then writes the
JSON dump; there is no temporary file and no atomic replace. The visible
file contents at the possible interruption points are: before the open
(the old content), after the truncation and before the write completes
(an empty or strictly partial file, which does not parse), and after the
complete write (the new state). -/
def save_visible_contents (old : StoredContent) (s : SyncState) :
    List StoredContent :=
  [old, .corrupt, .wellFormed s]

/-- Environment of one `retry_failed_downloads` call: the catalog listing
returned by `cloud_storage.get_user_files` (assumed to succeed — the
source has no exception handler here), and the per-file `sync_file`
environment keyed by `cloud_path`. -/
structure RetryEnv where
  catalog : List FileInfo
  envOf : String → SyncEnv

/-- Result of `retry_failed_downloads` (source lines 295-329):
`no_failed_downloads` when the ledger is empty; a `completed` summary
with totals otherwise — unless the dict iteration detects a size change,
in which case CPython raises `RuntimeError: dictionary changed size
during iteration`, modelled by `runtimeError`. -/
inductive RetryResult
  | no_failed_downloads (st : SyncState)
  | completed (st : SyncState) (total successful failed : Nat)
  | runtimeError (st : SyncState)
deriving Repr, DecidableEq

/-- The `for cloud_path, failed_info in failed_downloads.items():` loop of
`retry_failed_downloads` (source lines 305-320). CPython's dict iterator
records the dict's size at creation (`n0` here) and raises `RuntimeError`
at the next `__next__` call when the current size differs — including the
final call that would otherwise end the loop. The loop body: skip entries
with `retry_count >= 3`; re-resolve the entry's `FileRecord` from the
catalog; when found, run `sync_file` (which, on a download success,
deletes this very key from `failed_downloads`, changing the dict's size)
and append the result. -/
def retryLoop (renv : RetryEnv) (n0 : Nat) :
    List (String × FailedInfo) → SyncState → List Bool →
    Except SyncState (SyncState × List Bool)
  | [], st, acc =>
      if st.failed_downloads.length = n0 then .ok (st, acc) else .error st
  | (cloud_path, failed_info) :: rest, st, acc =>
      if st.failed_downloads.length ≠ n0 then .error st
      else if 3 ≤ failed_info.retry_count then
        retryLoop renv n0 rest st acc
      else
        match renv.catalog.find? (fun f => f.cloud_path == cloud_path) with
        | none => retryLoop renv n0 rest st acc
        | some fi =>
            let r := sync_file st fi (renv.envOf cloud_path)
            retryLoop renv n0 rest r.state (acc ++ [r.success])

/-- `LocalSyncService.retry_failed_downloads` (source lines 295-329). -/
def retry_failed_downloads (st : SyncState) (renv : RetryEnv) :
    RetryResult :=
  let failed_downloads := st.failed_downloads
  if failed_downloads.isEmpty then .no_failed_downloads st
  else
    match retryLoop renv failed_downloads.length failed_downloads st [] with
    | .error stE => .runtimeError stE
    | .ok (st', results) =>
        let successful := results.count true
        .completed st' results.length successful
          (results.length - successful)

/-- Whether a retry call ended in the CPython `RuntimeError`. -/
def RetryResult.isRuntimeError : RetryResult → Bool
  | .runtimeError _ => true
  | _ => false

/-- State carried by a finished or aborted retry loop: the in-memory
`sync_state` is the same object whether the loop ends normally or the
iterator raises. -/
def retryLoopState : Except SyncState (SyncState × List Bool) → SyncState
  | .error st => st
  | .ok (st, _) => st

/-- The in-memory sync state after a `retry_failed_downloads` call,
whatever its outcome. -/
def RetryResult.state : RetryResult → SyncState
  | .no_failed_downloads st => st
  | .completed st _ _ _ => st
  | .runtimeError st => st

/-! Interleaving model of the concurrent part of `sync_all_files`
(source lines 219-228): `semaphore = asyncio.Semaphore(K)` and one task
per file running `async with semaphore: await self.sync_file(...)`.
Each task is created, awaits the semaphore, holds a permit while its
transfer is in flight, and releases the permit when it finishes; the
event loop interleaves these steps in any order. -/

/-- Phase of one `sync_with_semaphore` task. -/
inductive TaskPhase
  | notStarted
  | waiting
  | running
  | done
deriving Repr, DecidableEq

/-- Whether a task currently holds a permit (its transfer is in flight). -/
def TaskPhase.isRunning : TaskPhase → Bool
  | .running => true
  | _ => false

/-- State of the scheduler: free permits of the semaphore and the phase of
every task. -/
structure SchedState where
  permits : Nat
  phases : List TaskPhase
deriving Repr, DecidableEq

/-- Number of transfers in flight. -/
def inFlight (s : SchedState) : Nat :=
  (s.phases.filter TaskPhase.isRunning).length

/-- Initial scheduler state of a pass with `M` tasks and semaphore value
`K` (`asyncio.Semaphore(self.max_concurrent_downloads)`). -/
def initSched (K M : Nat) : SchedState :=
  { permits := K, phases := List.replicate M .notStarted }

/-- The default `max_concurrent_downloads` (source line 55). -/
def max_concurrent_downloads : Nat := 3

/-- One event-loop step: start a created task (it reaches the
`async with semaphore` line), grant a permit to a waiting task when one is
free (`Semaphore.acquire` suspends the task otherwise), or finish a
running task's transfer, releasing its permit. -/
inductive SchedStep : SchedState → SchedState → Prop
  | start (s : SchedState) (i : Nat)
      (h : s.phases.get? i = some .notStarted) :
      SchedStep s { s with phases := s.phases.set i .waiting }
  | acquire (s : SchedState) (i : Nat)
      (h : s.phases.get? i = some .waiting) (hp : 0 < s.permits) :
      SchedStep s { permits := s.permits - 1
                    phases := s.phases.set i .running }
  | finish (s : SchedState) (i : Nat)
      (h : s.phases.get? i = some .running) :
      SchedStep s { permits := s.permits + 1
                    phases := s.phases.set i .done }

/-- Scheduler states reachable during a pass with `M` tasks and limit
`K`. -/
def SchedReachable (K M : Nat) (s : SchedState) : Prop :=
  Relation.ReflTransGen SchedStep (initSched K M) s

/-! Helper lemmas about the dict model. -/

theorem dictLookup_dictErase {α : Type} (d : List (String × α)) (k : String) :
    dictLookup (dictErase d k) k = none := by
  induction d with
  | nil => rfl
  | cons kv rest ih =>
      by_cases h : kv.1 = k
      · simpa [dictErase, List.filter_cons, h] using ih
      · simp [dictErase, dictLookup, List.filter_cons, h, ih]

theorem dictLookup_dictInsert_self {α : Type} (d : List (String × α))
    (k : String) (v : α) : dictLookup (dictInsert d k v) k = some v := by
  induction d with
  | nil => simp [dictInsert, dictLookup]
  | cons kv rest ih =>
      by_cases h : kv.1 = k
      · simp [dictInsert, dictLookup, List.find?_cons, h]
      · have hcond :
            ((kv :: rest).find? (fun kv => kv.1 == k)).isSome
              = (rest.find? (fun kv => kv.1 == k)).isSome := by
          simp [List.find?_cons, h]
        by_cases hr : (rest.find? (fun kv => kv.1 == k)).isSome
        · have : dictInsert (kv :: rest) k v
              = kv :: dictInsert rest k v := by
            simp [dictInsert, hcond, hr, h]
          rw [this]
          simpa [dictLookup, List.find?_cons, h] using ih
        · have : dictInsert (kv :: rest) k v
              = kv :: dictInsert rest k v := by
            simp [dictInsert, hcond, hr, h]
          rw [this]
          simpa [dictLookup, List.find?_cons, h] using ih

theorem dictInsert_append {α : Type} (d : List (String × α)) (k : String)
    (v : α) (h : dictLookup d k = none) : dictInsert d k v = d ++ [(k, v)] := by
  have hf : d.find? (fun kv => kv.1 == k) = none := by
    cases hx : d.find? (fun kv => kv.1 == k) with
    | none => rfl
    | some x => simp [dictLookup, hx] at h
  simp [dictInsert, hf]

/-! Branch characterizations of `sync_file`. -/

theorem sync_file_shortcircuit (st : SyncState) (fi : FileInfo)
    (env : SyncEnv) (h0 : env.opError = false) (h1 : env.localExists = true)
    (h2 : env.localSize = fi.file_size.getD 0) :
    sync_file st fi env =
      { state :=
          { st with
            synced_files := dictInsert st.synced_files fi.cloud_path
              { local_path := fi.channel_name ++ "/" ++ fi.filename
                synced_at := env.now, size := env.localSize } }
        success := true, downloadInvoked := false, saves := 1 } := by
  simp [sync_file, h0, h1, h2]

theorem sync_file_download_success (st : SyncState) (fi : FileInfo)
    (env : SyncEnv) (h0 : env.opError = false)
    (hb : (env.localExists && (env.localSize == fi.file_size.getD 0)) = false)
    (hd : env.downloadOk = true) :
    sync_file st fi env =
      { state :=
          { st with
            synced_files := dictInsert st.synced_files fi.cloud_path
              { local_path := fi.channel_name ++ "/" ++ fi.filename
                synced_at := env.now, size := env.downloadedSize }
            total_synced := st.total_synced + 1
            total_size := st.total_size + env.downloadedSize
            failed_downloads := dictErase st.failed_downloads fi.cloud_path }
        success := true, downloadInvoked := true, saves := 1 } := by
  simp [sync_file, h0, hb, hd]

theorem sync_file_download_failure (st : SyncState) (fi : FileInfo)
    (env : SyncEnv) (h0 : env.opError = false)
    (hb : (env.localExists && (env.localSize == fi.file_size.getD 0)) = false)
    (hd : env.downloadOk = false) :
    sync_file st fi env =
      { state :=
          { st with
            failed_downloads := dictInsert st.failed_downloads fi.cloud_path
              { filename := fi.filename, failed_at := env.now
                retry_count :=
                  ((dictLookup st.failed_downloads fi.cloud_path).map
                    (·.retry_count)).getD 0 + 1 } }
        success := false, downloadInvoked := true, saves := 1 } := by
  simp [sync_file, h0, hb, hd]

theorem sync_file_saves (st : SyncState) (fi : FileInfo) (env : SyncEnv)
    (h0 : env.opError = false) : (sync_file st fi env).saves = 1 := by
  simp only [sync_file, h0, Bool.false_eq_true, if_false]
  split
  · rfl
  · split <;> rfl

/-! Counter invariants of the sync state. -/

/-- The spec invariant: `total_synced` equals the number of entries of
`synced_files` and `total_size` equals the sum of their recorded sizes. -/
def sumSizes (d : List (String × SyncedInfo)) : Nat :=
  (d.map (fun kv => kv.2.size)).sum

def countersOk (st : SyncState) : Prop :=
  st.total_synced = st.synced_files.length ∧
  st.total_size = sumSizes st.synced_files

theorem sumSizes_append (d : List (String × SyncedInfo)) (kv) :
    sumSizes (d ++ [kv]) = sumSizes d + kv.2.size := by
  simp [sumSizes]

/-! Lemmas about the task fold and the retry loop. -/

theorem runTasks_saves (envOf : String → SyncEnv) (files : List FileInfo) :
    ∀ st : SyncState,
    (∀ fi ∈ files, (envOf fi.cloud_path).opError = false) →
    (runTasks envOf files st).2.2 = files.length := by
  induction files with
  | nil => intro st _; rfl
  | cons fi rest ih =>
      intro st h
      have h1 : (envOf fi.cloud_path).opError = false := h fi (by simp)
      have hr : ∀ g ∈ rest, (envOf g.cloud_path).opError = false :=
        fun g hg => h g (by simp [hg])
      simp [runTasks, ih _ hr, sync_file_saves _ _ _ h1, Nat.add_comm]

theorem retryLoop_all_skip (renv : RetryEnv) (n0 : Nat)
    (l : List (String × FailedInfo)) :
    ∀ (st : SyncState) (acc : List Bool),
    st.failed_downloads.length = n0 →
    (∀ kv ∈ l, 3 ≤ kv.2.retry_count) →
    retryLoop renv n0 l st acc = .ok (st, acc) := by
  induction l with
  | nil => intro st acc hn _; simp [retryLoop, hn]
  | cons kv rest ih =>
      intro st acc hn h
      obtain ⟨k, info⟩ := kv
      have h3 : 3 ≤ info.retry_count := h (k, info) (by simp)
      have := ih st acc hn (fun g hg => h g (by simp [hg]))
      simp [retryLoop, hn, h3, this]

/-! Lookups at other keys are untouched by dict updates, so a ledger
entry survives every retry iteration that concerns a different file. -/

theorem dictLookup_cons {α : Type} (a : String × α)
    (d : List (String × α)) (p : String) :
    dictLookup (a :: d) p
      = if a.1 = p then some a.2 else dictLookup d p := by
  by_cases h : a.1 = p
  · simp [dictLookup, List.find?_cons, h]
  · simp [dictLookup, List.find?_cons, h]

theorem dictLookup_map_replace_ne {α : Type} (d : List (String × α))
    (k p : String) (v : α) (hne : k ≠ p) :
    dictLookup (d.map (fun kv => if kv.1 == k then (k, v) else kv)) p
      = dictLookup d p := by
  induction d with
  | nil => rfl
  | cons a rest ih =>
      simp only [List.map_cons]
      by_cases hak : a.1 = k
      · rw [if_pos (by simp [hak]), dictLookup_cons, dictLookup_cons,
          if_neg hne, if_neg (fun hp => hne (hak.symm.trans hp))]
        exact ih
      · rw [if_neg (by simp [hak]), dictLookup_cons, dictLookup_cons]
        by_cases hap : a.1 = p
        · rw [if_pos hap, if_pos hap]
        · rw [if_neg hap, if_neg hap]
          exact ih

theorem dictLookup_append_singleton_ne {α : Type} (d : List (String × α))
    (k p : String) (v : α) (hne : k ≠ p) :
    dictLookup (d ++ [(k, v)]) p = dictLookup d p := by
  induction d with
  | nil =>
      show dictLookup ((k, v) :: []) p = dictLookup [] p
      rw [dictLookup_cons, if_neg hne]
  | cons a rest ih =>
      rw [List.cons_append, dictLookup_cons, dictLookup_cons]
      by_cases hap : a.1 = p
      · rw [if_pos hap, if_pos hap]
      · rw [if_neg hap, if_neg hap]
        exact ih

theorem dictLookup_dictInsert_ne {α : Type} (d : List (String × α))
    (k p : String) (v : α) (hne : k ≠ p) :
    dictLookup (dictInsert d k v) p = dictLookup d p := by
  unfold dictInsert
  split
  · exact dictLookup_map_replace_ne d k p v hne
  · exact dictLookup_append_singleton_ne d k p v hne

theorem dictLookup_dictErase_ne {α : Type} (d : List (String × α))
    (k p : String) (hne : k ≠ p) :
    dictLookup (dictErase d k) p = dictLookup d p := by
  induction d with
  | nil => rfl
  | cons a rest ih =>
      simp only [dictErase, List.filter_cons]
      by_cases hak : a.1 = k
      · rw [if_neg (by simp [hak]), dictLookup_cons,
          if_neg (fun hp => hne (hak.symm.trans hp))]
        exact ih
      · rw [if_pos (by simp [hak]), dictLookup_cons, dictLookup_cons]
        by_cases hap : a.1 = p
        · rw [if_pos hap, if_pos hap]
        · rw [if_neg hap, if_neg hap]
          exact ih

/-- `sync_file` touches `failed_downloads` only at its own file's
`cloud_path`: lookups at every other key are unchanged on all four
paths. -/
theorem sync_file_failed_preserved (st : SyncState) (fi : FileInfo)
    (env : SyncEnv) (p : String) (hne : fi.cloud_path ≠ p) :
    dictLookup (sync_file st fi env).state.failed_downloads p
      = dictLookup st.failed_downloads p := by
  unfold sync_file
  split
  · rfl
  · split
    · rfl
    · split
      · exact dictLookup_dictErase_ne _ _ _ hne
      · exact dictLookup_dictInsert_ne _ _ _ _ hne

/-- In a dict with no duplicate keys — the representation invariant of
every Python dict — every pair carrying the looked-up key holds the
looked-up value. -/
theorem dictLookup_unique {α : Type} (d : List (String × α)) (p : String)
    (x : α) (hnd : (d.map Prod.fst).Nodup)
    (h : dictLookup d p = some x) :
    ∀ kv ∈ d, kv.1 = p → kv.2 = x := by
  induction d with
  | nil => intro kv hkv; simp at hkv
  | cons a rest ih =>
      intro kv hkv hk
      simp only [List.map_cons, List.nodup_cons] at hnd
      obtain ⟨hna, hnr⟩ := hnd
      by_cases hap : a.1 = p
      · have hx : a.2 = x := by
          rw [dictLookup_cons, if_pos hap] at h
          exact Option.some.inj h
        rcases List.mem_cons.mp hkv with rfl | hmem
        · exact hx
        · refine absurd ?_ hna
          have : kv.1 ∈ rest.map Prod.fst :=
            List.mem_map_of_mem Prod.fst hmem
          rw [hap, ← hk]
          exact this
      · rcases List.mem_cons.mp hkv with rfl | hmem
        · exact absurd hk hap
        · have h' : dictLookup rest p = some x := by
            rw [dictLookup_cons, if_neg hap] at h
            exact h
          exact ih hnr h' kv hmem hk

/-- Through the whole retry loop, a ledger entry with `retry_count >= 3`
survives unchanged: its own iteration skips it, every other iteration
touches only its own key, and both the normal and the `RuntimeError`
exit carry the same in-memory state. -/
theorem retryLoop_capped_preserved (renv : RetryEnv) (n0 : Nat)
    (p : String) (info : FailedInfo) (hrc : 3 ≤ info.retry_count) :
    ∀ (l : List (String × FailedInfo)) (st : SyncState) (acc : List Bool),
    (∀ kv ∈ l, kv.1 = p → kv.2 = info) →
    dictLookup st.failed_downloads p = some info →
    dictLookup
        (retryLoopState (retryLoop renv n0 l st acc)).failed_downloads p
      = some info := by
  intro l
  induction l with
  | nil =>
      intro st acc _ hst
      by_cases hn : st.failed_downloads.length = n0 <;>
        simp [retryLoop, retryLoopState, hn, hst]
  | cons kv rest ih =>
      intro st acc hl hst
      obtain ⟨k, i⟩ := kv
      have hrest : ∀ g ∈ rest, g.1 = p → g.2 = info :=
        fun g hg => hl g (List.mem_cons_of_mem _ hg)
      by_cases hn : st.failed_downloads.length = n0
      · by_cases hcap : 3 ≤ i.retry_count
        · have hstep : retryLoop renv n0 ((k, i) :: rest) st acc
              = retryLoop renv n0 rest st acc := by
            simp [retryLoop, hn, hcap]
          rw [hstep]
          exact ih st acc hrest hst
        · have hkp : k ≠ p := by
            intro he
            have hig : i = info := hl (k, i) (List.mem_cons_self _ _) he
            exact hcap (by rw [hig]; exact hrc)
          cases hfind : renv.catalog.find? (fun f => f.cloud_path == k) with
          | none =>
              have hstep : retryLoop renv n0 ((k, i) :: rest) st acc
                  = retryLoop renv n0 rest st acc := by
                simp [retryLoop, hn, hcap, hfind]
              rw [hstep]
              exact ih st acc hrest hst
          | some fi =>
              have hfk : fi.cloud_path = k := by
                have := List.find?_some hfind
                simpa using this
              have hpres := sync_file_failed_preserved st fi
                (renv.envOf k) p (hfk ▸ hkp)
              have hstep : retryLoop renv n0 ((k, i) :: rest) st acc
                  = retryLoop renv n0 rest
                      (sync_file st fi (renv.envOf k)).state
                      (acc ++ [(sync_file st fi (renv.envOf k)).success]) := by
                simp [retryLoop, hn, hcap, hfind]
              rw [hstep]
              exact ih _ _ hrest (hpres.trans hst)
      · simp [retryLoop, retryLoopState, hn, hst]

/-! Scheduler invariant: free permits plus transfers in flight is the
semaphore's initial value. -/

theorem filter_isRunning_set (l : List TaskPhase) :
    ∀ (i : Nat) (x y : TaskPhase), l.get? i = some y →
    ((l.set i x).filter TaskPhase.isRunning).length
        + (if y.isRunning then 1 else 0)
      = (l.filter TaskPhase.isRunning).length
        + (if x.isRunning then 1 else 0) := by
  induction l with
  | nil => intro i x y h; simp at h
  | cons a rest ih =>
      intro i x y h
      cases i with
      | zero =>
          simp only [List.get?] at h
          cases h
          simp only [List.set, List.filter_cons]
          by_cases hx : x.isRunning <;> by_cases ha : a.isRunning <;>
            simp [hx, ha]
      | succ n =>
          simp only [List.get?] at h
          have hrec := ih n x y h
          simp only [List.set, List.filter_cons]
          by_cases ha : a.isRunning <;> simp [ha] <;> omega

theorem inFlight_initSched (K M : Nat) : inFlight (initSched K M) = 0 := by
  simp only [inFlight, initSched]
  induction M with
  | zero => rfl
  | succ n ih => simp [List.replicate, List.filter_cons, TaskPhase.isRunning]

theorem sched_invariant {K M : Nat} {s : SchedState}
    (h : SchedReachable K M s) : s.permits + inFlight s = K := by
  induction h with
  | refl => rw [inFlight_initSched]; simp [initSched]
  | tail hsteps hstep ih =>
      cases hstep with
      | start i hi =>
          have hc := filter_isRunning_set _ i .waiting .notStarted hi
          simp only [inFlight, TaskPhase.isRunning] at hc ih ⊢
          simp at hc ⊢
          omega
      | acquire i hi hp =>
          have hc := filter_isRunning_set _ i .running .waiting hi
          simp only [inFlight, TaskPhase.isRunning] at hc ih ⊢
          simp at hc ⊢
          omega
      | finish i hi =>
          have hc := filter_isRunning_set _ i .done .running hi
          simp only [inFlight, TaskPhase.isRunning] at hc ih ⊢
          simp at hc ⊢
          omega

/-! Concrete fixtures used by witnesses and counterexamples. -/

/-- A catalog file of 5 bytes at cloud path `p`. -/
def fiP : FileInfo :=
  { cloud_path := "p", filename := "f", channel_name := "ch"
    file_size := some 5 }

/-- Environment of a failing download: no local copy, `download_file`
returns `False`. -/
def envFail : SyncEnv :=
  { opError := false, localExists := false, localSize := 0
    downloadOk := false, downloadedSize := 0, now := "t1" }

/-- Environment of the size short-circuit: a 5-byte local copy exists. -/
def envShort : SyncEnv :=
  { opError := false, localExists := true, localSize := 5
    downloadOk := false, downloadedSize := 0, now := "t2" }

/-- Environment of a successful download of the 5 bytes. -/
def envSucc : SyncEnv :=
  { opError := false, localExists := false, localSize := 0
    downloadOk := true, downloadedSize := 5, now := "t3" }

/-- State after one failed download of `fiP` from the empty state. -/
def stOneFail : SyncState := (sync_file emptySyncState fiP envFail).state

/-- State after one successful download of `fiP` from the empty state. -/
def stOneSynced : SyncState := (sync_file emptySyncState fiP envSucc).state

/-- A state whose only failed download has exhausted its retries. -/
def stCapped : SyncState :=
  { emptySyncState with
    failed_downloads :=
      [("p", { filename := "f", failed_at := "t0", retry_count := 3 })] }

/-- A state with one failed download that has a single failure recorded. -/
def stRetryable : SyncState :=
  { emptySyncState with
    failed_downloads :=
      [("p", { filename := "f", failed_at := "t0", retry_count := 1 })] }

/-- Retry environment whose catalog holds `fiP` and whose download
succeeds. -/
def renvSucc : RetryEnv := { catalog := [fiP], envOf := fun _ => envSucc }

/-- A second catalog file of 7 bytes at cloud path `q`. -/
def fiQ : FileInfo :=
  { cloud_path := "q", filename := "g", channel_name := "ch"
    file_size := some 7 }

/-- A mixed ledger: `p` has exhausted its retries, `q` is still
retryable. -/
def stMixed : SyncState :=
  { emptySyncState with
    failed_downloads :=
      [("p", { filename := "f", failed_at := "t0", retry_count := 3 }),
       ("q", { filename := "g", failed_at := "t0", retry_count := 1 })] }

/-- Retry environment for the mixed ledger: the catalog holds both files
and the retried download of `q` succeeds (so the iteration even ends in
the `RuntimeError`). -/
def renvMixed : RetryEnv :=
  { catalog := [fiP, fiQ], envOf := fun _ => envSucc }

/-- Retry environment with an empty catalog and failing downloads. -/
def renvFail : RetryEnv := { catalog := [], envOf := fun _ => envFail }

/-! Claim theorems. -/

/-- Claim C1 (amended): a file whose `retry_count` has reached 3 is
excluded from `retry_failed_downloads`: whatever else the ledger
contains (its keys being distinct, as in every Python dict), the capped
entry is skipped and survives the whole retry call — normal or aborted —
unchanged; when every ledger entry is capped the call completes with
zero retries and an unchanged state; and each consecutive download
failure increments a file's `retry_count` by exactly 1. But nothing
excludes a capped file from a regular pass, and its `retry_count` does
not stay at 3 (see the counterexample). -/
theorem claim_C1 :
    (∀ (st : SyncState) (renv : RetryEnv) (p : String)
        (info : FailedInfo),
      (st.failed_downloads.map Prod.fst).Nodup →
      dictLookup st.failed_downloads p = some info →
      3 ≤ info.retry_count →
      dictLookup
          (retry_failed_downloads st renv).state.failed_downloads p
        = some info) ∧
    (∀ (st : SyncState) (renv : RetryEnv),
      st.failed_downloads ≠ [] →
      (∀ kv ∈ st.failed_downloads, 3 ≤ kv.2.retry_count) →
      retry_failed_downloads st renv = .completed st 0 0 0) ∧
    (∀ (st : SyncState) (fi : FileInfo) (env : SyncEnv) (info : FailedInfo),
      env.opError = false →
      (env.localExists && (env.localSize == fi.file_size.getD 0)) = false →
      env.downloadOk = false →
      dictLookup st.failed_downloads fi.cloud_path = some info →
      dictLookup (sync_file st fi env).state.failed_downloads fi.cloud_path
        = some { filename := fi.filename, failed_at := env.now
                 retry_count := info.retry_count + 1 }) := by
  refine ⟨?_, ?_, ?_⟩
  · intro st renv p info hnd hst hrc
    have hmem := dictLookup_unique st.failed_downloads p info hnd hst
    have hloop := retryLoop_capped_preserved renv
      st.failed_downloads.length p info hrc st.failed_downloads st []
      hmem hst
    by_cases he : st.failed_downloads.isEmpty
    · simp [retry_failed_downloads, he, RetryResult.state, hst]
    · cases hres : retryLoop renv st.failed_downloads.length
          st.failed_downloads st [] with
      | error stE =>
          rw [hres] at hloop
          simpa [retry_failed_downloads, he, hres, RetryResult.state,
            retryLoopState] using hloop
      | ok pr =>
          obtain ⟨st', res⟩ := pr
          rw [hres] at hloop
          simpa [retry_failed_downloads, he, hres, RetryResult.state,
            retryLoopState] using hloop
  · intro st renv hne hall
    have hskip := retryLoop_all_skip renv st.failed_downloads.length
      st.failed_downloads st [] rfl hall
    have hempty : st.failed_downloads.isEmpty = false := by
      cases hg : st.failed_downloads with
      | nil => exact absurd hg hne
      | cons a l => rfl
    simp [retry_failed_downloads, hempty, hskip]
  · intro st fi env info h0 hb hd hl
    rw [sync_file_download_failure st fi env h0 hb hd]
    rw [hl]
    exact dictLookup_dictInsert_self _ _ _

/-- Witness for C1: in a mixed ledger (`p` capped at 3, `q` retryable)
whose retry of `q` succeeds, `p`'s entry survives the call unchanged; a
wholly capped ledger is skipped whole; one more failure on a once-failed
file moves its `retry_count` from 1 to 2. -/
theorem claim_C1_witness :
    dictLookup
        (retry_failed_downloads stMixed renvMixed).state.failed_downloads
        "p"
      = some { filename := "f", failed_at := "t0", retry_count := 3 } ∧
    retry_failed_downloads stCapped renvFail = .completed stCapped 0 0 0 ∧
    dictLookup (sync_file stRetryable fiP envFail).state.failed_downloads
        fiP.cloud_path
      = some { filename := "f", failed_at := "t1", retry_count := 2 } :=
  ⟨claim_C1.1 stMixed renvMixed "p"
     { filename := "f", failed_at := "t0", retry_count := 3 }
     (by decide) rfl (by decide),
   claim_C1.2.1 stCapped renvFail (by decide) (by decide),
   claim_C1.2.2 stRetryable fiP envFail
     { filename := "f", failed_at := "t0", retry_count := 1 } rfl rfl rfl rfl⟩

/-- Counterexample to C1 as stated: a file whose `retry_count` is already
3 is still planned by a regular pass (`get_cloud_files` filters only on
`synced_files`), and after that pass fails its download the recorded
`retry_count` is 4, not 3. -/
theorem claim_C1_counterexample :
    (sync_all_files stCapped true (.ok [fiP]) (fun _ => envFail)
        "t9").total_files = 1 ∧
    dictLookup (sync_all_files stCapped true (.ok [fiP]) (fun _ => envFail)
        "t9").state.failed_downloads "p"
      = some { filename := "f", failed_at := "t1", retry_count := 4 } :=
  ⟨rfl, rfl⟩

/-- Claim C2 (amended): the download-success path of `sync_file` removes
the path from `failed_downloads`, so a path never ends in both maps
through that path; but the size short-circuit leaves `failed_downloads`
untouched while adding the path to `synced_files`, so the two maps are
not disjoint in general (see the counterexample). -/
theorem claim_C2 (st : SyncState) (fi : FileInfo) (env : SyncEnv)
    (h0 : env.opError = false) :
    ((env.localExists && (env.localSize == fi.file_size.getD 0)) = false →
      env.downloadOk = true →
      dictLookup (sync_file st fi env).state.failed_downloads fi.cloud_path
        = none) ∧
    (env.localExists = true → env.localSize = fi.file_size.getD 0 →
      (sync_file st fi env).state.failed_downloads
        = st.failed_downloads) := by
  constructor
  · intro hb hd
    rw [sync_file_download_success st fi env h0 hb hd]
    exact dictLookup_dictErase _ _
  · intro h1 h2
    rw [sync_file_shortcircuit st fi env h0 h1 h2]

/-- Witness for C2 at concrete inputs: a successful download clears the
failure entry; a short-circuit leaves the failure map as it was. -/
theorem claim_C2_witness :
    dictLookup (sync_file stOneFail fiP envSucc).state.failed_downloads
      fiP.cloud_path = none ∧
    (sync_file stOneFail fiP envShort).state.failed_downloads
      = stOneFail.failed_downloads :=
  ⟨(claim_C2 stOneFail fiP envSucc rfl).1 rfl rfl,
   (claim_C2 stOneFail fiP envShort rfl).2 rfl rfl⟩

/-- Counterexample to C2 as stated: fail a download of `p` from the empty
state, then run `sync_file` again when a matching-size local copy exists;
the short-circuit records `p` as synced without clearing the failure
entry, so `p` is a key of both maps at once. -/
theorem claim_C2_counterexample :
    dictLookup (sync_file stOneFail fiP envShort).state.synced_files "p"
      = some { local_path := "ch/f", synced_at := "t2", size := 5 } ∧
    dictLookup (sync_file stOneFail fiP envShort).state.failed_downloads "p"
      = some { filename := "f", failed_at := "t1", retry_count := 1 } :=
  ⟨rfl, rfl⟩

/-- Claim C3 (amended): the download-success path of `sync_file` adds the
entry and bumps `total_synced` by 1 and `total_size` by the entry's size,
preserving the counter equalities whenever the path is new; the size
short-circuit adds the entry but leaves both counters untouched, so it
breaks the equalities whenever the path is new (see the
counterexample). -/
theorem claim_C3 (st : SyncState) (fi : FileInfo) (env : SyncEnv)
    (hc : countersOk st)
    (hfresh : dictLookup st.synced_files fi.cloud_path = none)
    (h0 : env.opError = false) :
    ((env.localExists && (env.localSize == fi.file_size.getD 0)) = false →
      env.downloadOk = true → countersOk (sync_file st fi env).state) ∧
    (env.localExists = true → env.localSize = fi.file_size.getD 0 →
      ¬ countersOk (sync_file st fi env).state) := by
  obtain ⟨hc1, hc2⟩ := hc
  constructor
  · intro hb hd
    rw [sync_file_download_success st fi env h0 hb hd]
    constructor
    · simp [dictInsert_append _ _ _ hfresh, hc1]
    · simp [dictInsert_append _ _ _ hfresh, sumSizes_append, hc2]
  · intro h1 h2
    rw [sync_file_shortcircuit st fi env h0 h1 h2]
    intro hcon
    obtain ⟨hx, _⟩ := hcon
    simp [dictInsert_append _ _ _ hfresh] at hx
    omega

/-- Witness for C3: from the empty state a successful 5-byte download
keeps the counters consistent. -/
theorem claim_C3_witness :
    countersOk (sync_file emptySyncState fiP envSucc).state :=
  (claim_C3 emptySyncState fiP envSucc ⟨rfl, rfl⟩ rfl rfl).1 rfl rfl

/-- Counterexample to C3 as stated: the size short-circuit from the empty
state yields one `synced_files` entry of size 5 while `total_synced` and
`total_size` stay 0, so the pass that adds an entry does not preserve the
equalities. -/
theorem claim_C3_counterexample :
    (sync_file emptySyncState fiP envShort).state.synced_files.length = 1 ∧
    (sync_file emptySyncState fiP envShort).state.total_synced = 0 ∧
    sumSizes (sync_file emptySyncState fiP envShort).state.synced_files
      = 5 ∧
    (sync_file emptySyncState fiP envShort).state.total_size = 0 ∧
    ¬ countersOk (sync_file emptySyncState fiP envShort).state := by
  refine ⟨rfl, rfl, rfl, rfl, fun h => absurd h.1 (by decide)⟩

/-- Claim C4 (amended): when the catalog listing raises,
`get_cloud_files` catches the exception and returns the empty list, so
the pass returns a `no_new_files` result — not an `error` result — runs
no transfer task, performs no persist, and leaves the state exactly as it
was. -/
theorem claim_C4 (st : SyncState) (envOf : String → SyncEnv)
    (now : String) :
    sync_all_files st true (.error ()) envOf now =
      { status := .no_new_files, total_files := 0, successful := 0
        failed := 0, saves := 0, state := st } := rfl

/-- Counterexample to C4 as stated: with a raising catalog the pass
reports `no_new_files`, which is not the `error` status the claim
requires. -/
theorem claim_C4_counterexample :
    (sync_all_files emptySyncState true (.error ()) (fun _ => envSucc)
        "t9").status = SyncStatus.no_new_files ∧
    SyncStatus.no_new_files ≠ SyncStatus.error :=
  ⟨rfl, by decide⟩

/-- Claim C5 (amended): in a pass with a non-empty plan of n
non-exceptional tasks, `save_sync_state` runs n + 1 times — once inside
`sync_file` for every task (each outcome path saves) plus the single
final save after all tasks resolve — not exactly once. -/
theorem claim_C5 (st : SyncState) (catalog : Except Unit (List FileInfo))
    (envOf : String → SyncEnv) (now : String)
    (h1 : get_cloud_files st catalog ≠ [])
    (h2 : ∀ fi ∈ get_cloud_files st catalog,
      (envOf fi.cloud_path).opError = false) :
    (sync_all_files st true catalog envOf now).saves
      = (get_cloud_files st catalog).length + 1 := by
  have hne : (get_cloud_files st catalog).isEmpty = false := by
    cases hg : get_cloud_files st catalog with
    | nil => exact absurd hg h1
    | cons a l => rfl
  simp [sync_all_files, hne, runTasks_saves envOf _ st h2]

/-- Witness for C5: a one-file plan persists twice. -/
theorem claim_C5_witness :
    (sync_all_files emptySyncState true (.ok [fiP]) (fun _ => envSucc)
        "t9").saves
      = (get_cloud_files emptySyncState (.ok [fiP])).length + 1 :=
  claim_C5 emptySyncState (.ok [fiP]) (fun _ => envSucc) "t9"
    (by decide) (fun _ _ => rfl)

/-- Counterexample to C5 as stated: a pass over a one-file plan invokes
`save_sync_state` 2 times, not exactly once. -/
theorem claim_C5_counterexample :
    (sync_all_files emptySyncState true (.ok [fiP]) (fun _ => envSucc)
        "t9").saves = 2 ∧ (2 : Nat) ≠ 1 :=
  ⟨rfl, by decide⟩

/-- Claim C6 (amended): `save_sync_state` writes the state file in place
(opening with mode `w` truncates it, then the JSON is written), with no
temporary file and no atomic replace; every interruption point leaves a
subsequent `load_sync_state` with the previous state, the new state, or —
after the truncation and before the write completes — the fresh empty
state, in which case previously recorded `synced_files` entries are lost
(see the counterexample). -/
theorem claim_C6 (old : StoredContent) (s : SyncState) (c : StoredContent)
    (h : c ∈ save_visible_contents old s) :
    load_sync_state c = load_sync_state old ∨ load_sync_state c = s ∨
      load_sync_state c = emptySyncState := by
  simp only [save_visible_contents, List.mem_cons, List.not_mem_nil,
    or_false] at h
  rcases h with h | h | h <;> subst h
  · exact .inl rfl
  · exact .inr (.inr rfl)
  · exact .inr (.inl rfl)

/-- Witness for C6 at a concrete interruption point. -/
theorem claim_C6_witness :
    load_sync_state .corrupt = load_sync_state (.wellFormed stOneSynced) ∨
    load_sync_state .corrupt = stOneSynced ∨
    load_sync_state .corrupt = emptySyncState :=
  claim_C6 (.wellFormed stOneSynced) stOneSynced .corrupt
    (by simp [save_visible_contents])

/-- Counterexample to C6 as stated: interrupting a save between the
truncation and the completed write leaves a corrupt file; the following
load returns the fresh empty state, which is neither the previous nor the
new complete state, and the previously recorded `synced_files` entry of
`p` is gone. -/
theorem claim_C6_counterexample :
    StoredContent.corrupt ∈
      save_visible_contents (.wellFormed stOneSynced) stOneSynced ∧
    dictLookup stOneSynced.synced_files "p"
      = some { local_path := "ch/f", synced_at := "t3", size := 5 } ∧
    dictLookup (load_sync_state .corrupt).synced_files "p" = none ∧
    load_sync_state .corrupt ≠ stOneSynced :=
  ⟨by simp [save_visible_contents], rfl, rfl, by decide⟩

/-- Claim C7 (confirmed): when a local file already exists at the
resolved destination with exactly the recorded size, `sync_file` records
the file in `synced_files` and returns success without invoking the
download operation. -/
theorem claim_C7 (st : SyncState) (fi : FileInfo) (env : SyncEnv)
    (sz : Nat) (h0 : env.opError = false) (h1 : env.localExists = true)
    (h2 : fi.file_size = some sz) (h3 : env.localSize = sz) :
    (sync_file st fi env).success = true ∧
    (sync_file st fi env).downloadInvoked = false ∧
    dictLookup (sync_file st fi env).state.synced_files fi.cloud_path =
      some { local_path := fi.channel_name ++ "/" ++ fi.filename
             synced_at := env.now, size := env.localSize } := by
  have hs : env.localSize = fi.file_size.getD 0 := by simp [h2, h3]
  rw [sync_file_shortcircuit st fi env h0 h1 hs]
  exact ⟨rfl, rfl, dictLookup_dictInsert_self _ _ _⟩

/-- Witness for C7 at a concrete matching-size local copy. -/
theorem claim_C7_witness :
    (sync_file emptySyncState fiP envShort).success = true ∧
    (sync_file emptySyncState fiP envShort).downloadInvoked = false ∧
    dictLookup (sync_file emptySyncState fiP envShort).state.synced_files
        fiP.cloud_path =
      some { local_path := fiP.channel_name ++ "/" ++ fiP.filename
             synced_at := envShort.now, size := envShort.localSize } :=
  claim_C7 emptySyncState fiP envShort 5 rfl rfl rfl rfl

/-- Claim C8 (confirmed): `load_sync_state` never fails its caller — a
present and readable state file yields the persisted state, and an
absent, unreadable or corrupt file yields the fresh empty state
`{last_sync := null, synced_files := {}, failed_downloads := {},
total_synced := 0, total_size := 0}`. -/
theorem claim_C8 :
    (∀ s : SyncState, load_sync_state (.wellFormed s) = s) ∧
    load_sync_state .absent = emptySyncState ∧
    load_sync_state .corrupt = emptySyncState ∧
    emptySyncState =
      { last_sync := none, synced_files := [], failed_downloads := []
        total_synced := 0, total_size := 0 } :=
  ⟨fun _ => rfl, rfl, rfl, rfl⟩

/-- Claim C9 (confirmed): in every scheduler state reachable during a
pass with M tasks under semaphore value K, at most K transfers are in
flight simultaneously. -/
theorem claim_C9 (K M : Nat) (s : SchedState)
    (h : SchedReachable K M s) : inFlight s ≤ K := by
  have := sched_invariant h
  omega

/-- Witness for C9: a state of a 2-task pass under the default limit,
reached by starting task 0 and granting it a permit, has at most 3
transfers in flight. -/
theorem claim_C9_witness :
    inFlight
        { permits := 2
          phases := [TaskPhase.running, TaskPhase.notStarted] }
      ≤ max_concurrent_downloads :=
  claim_C9 max_concurrent_downloads 2 _
    (Relation.ReflTransGen.tail
      (Relation.ReflTransGen.tail Relation.ReflTransGen.refl
        (SchedStep.start (initSched 3 2) 0 rfl))
      (SchedStep.acquire _ 0 rfl (by decide)))

/-- Claim C10 (the code has a bug here): retrying a ledger whose single
entry succeeds makes `sync_file` delete that entry from
`failed_downloads` while `retry_failed_downloads` is iterating the same
dict, so CPython raises `RuntimeError: dictionary changed size during
iteration` instead of returning the completed summary the claim
requires. -/
theorem claim_C10 :
    (retry_failed_downloads stRetryable renvSucc).isRuntimeError
      = true := rfl

end TeleSync


